import Mathlib

/-
Verification of the linuxspi programmer backend (src/avrdude/linuxspi.c).

The file shallowly embeds the backend's protocol state machine:

* `linuxspi_spi_duplex` models the single full-duplex exchange
  (linuxspi.c, lines 96-124): the environment is summarised by whether the
  device node could be opened (`openOk`) and by the byte count the ioctl
  reports (`ioctlRet`).
* `linuxspi_open` models the port check and store (lines 141-153).  The C
  parameter is a `char *`, so an absent port (a null pointer) is `none`
  while any actual string, the empty string included, is `some s`.
* `linuxspi_program_enable` models one enable attempt (lines 211-230).
  The outcome of the one `pgm->cmd` duplex call it performs is an input,
  `CmdOutcome`: either a successful exchange carrying the received frame,
  or a failed one, in which case the stack buffer `res` merely holds
  residual bytes.  Exactly as in the C, the integer returned by
  `pgm->cmd` is discarded; only the buffer contents are inspected.
* `enableLoop` and `linuxspi_init` model the bounded retry loop of
  `linuxspi_initialize` (lines 175-204); the transport is an oracle
  `t : Nat → CmdOutcome` giving the outcome of the i-th duplex call.
* `linuxspi_chip_erase` models lines 232-251.

Every operation also returns the list of externally visible events it
performs (duplex transfers and the usleep settle wait), so that claims
about how many transfers happen are statements about that trace.
-/

/-- A 4-byte command or response frame (the canonical AVR ISP width). -/
structure Frame where
  b0 : Nat
  b1 : Nat
  b2 : Nat
  b3 : Nat
deriving DecidableEq, Repr

/-- The all-zero frame produced by memset(cmd, 0, sizeof(cmd)). -/
def zeroFrame : Frame := ⟨0, 0, 0, 0⟩

/-- Modelled from the spec: an OpcodeTemplate is a per-part, per-operation
description of which bits of the 4-byte frame encode that operation (the C
OPCODE structure lives in avr.h, outside this repository's sources).  It is
represented as the mask of bits the template sets in each byte. -/
structure OpcodeTemplate where
  m0 : Nat
  m1 : Nat
  m2 : Nat
  m3 : Nat
deriving DecidableEq, Repr

/-- Modelled from the spec: avr_set_bits (avr.c, outside this repository's
sources) applies the template's bit-set operations to the frame. -/
def avr_set_bits (t : OpcodeTemplate) (c : Frame) : Frame :=
  ⟨c.b0 ||| t.m0, c.b1 ||| t.m1, c.b2 ||| t.m2, c.b3 ||| t.m3⟩

/-- The part description consumed by the backend: the TPI capability flag
(p->flags & AVRPART_HAS_TPI), the enable and erase opcode templates
(p->op[AVR_OP_PGM_ENABLE], p->op[AVR_OP_CHIP_ERASE]), the erase settle
duration in microseconds (p->chip_erase_delay) and the diagnostic name. -/
structure AVRPART where
  flags_has_tpi : Bool
  op_pgm_enable : Option OpcodeTemplate
  op_chip_erase : Option OpcodeTemplate
  chip_erase_delay : Nat
  desc : String

/-- Result of one low-level duplex exchange, linuxspi.c lines 96-124.
The two error constructors record which diagnostic branch ran. -/
inductive DuplexResult where
  | ok (nbytes : Int)
  | openFailed
  | shortTransfer
deriving DecidableEq, Repr

/-- linuxspi_spi_duplex, lines 96-124: open the node (fd < 0 modelled by
openOk = false), issue the ioctl whose reported count is ioctlRet, and
compare that count with the requested length. -/
def linuxspi_spi_duplex (openOk : Bool) (ioctlRet : Int) (len : Int) : DuplexResult :=
  if openOk = false then DuplexResult.openFailed
  else if ioctlRet ≠ len then DuplexResult.shortTransfer
  else DuplexResult.ok ioctlRet

/-- The C return value of linuxspi_spi_duplex: -1 on either failure,
otherwise the number of bytes transferred. -/
def duplexRet : DuplexResult → Int
  | DuplexResult.ok n => n
  | DuplexResult.openFailed => -1
  | DuplexResult.shortTransfer => -1

/-- The stderr diagnostic each duplex outcome emits (lines 101 and 119). -/
def duplexDiagnostic : DuplexResult → Option String
  | DuplexResult.ok _ => none
  | DuplexResult.openFailed => some "error: Unable to open SPI port"
  | DuplexResult.shortTransfer => some "error: Unable to send SPI message"

/-- Result of linuxspi_open, lines 141-153: exit(1) or the port stored
verbatim by strcpy(pgm->port, port). -/
inductive OpenResult where
  | fatalExit
  | opened (port : String)
deriving DecidableEq, Repr

/-- linuxspi_open, lines 141-153: exit(1) when port is the null pointer or
compares equal to "unknown"; otherwise store the port verbatim. -/
def linuxspi_open (port : Option String) : OpenResult :=
  match port with
  | none => OpenResult.fatalExit
  | some s => if s = "unknown" then OpenResult.fatalExit else OpenResult.opened s

/-- Outcome of one pgm->cmd duplex call as seen by the caller: the int it
returns together with what the rx buffer holds afterwards.  On a failed
exchange the buffer holds whatever residual bytes were there. -/
inductive CmdOutcome where
  | ok (res : Frame)
  | fail (residual : Frame)
deriving DecidableEq, Repr

/-- The bytes found in the res buffer after the call, in either case. -/
def CmdOutcome.buffer : CmdOutcome → Frame
  | CmdOutcome.ok r => r
  | CmdOutcome.fail r => r

/-- The int linuxspi_cmd returns (4 on success, -1 on failure); the callers
in this file never consult it, mirroring lines 224 and 246 of the C. -/
def CmdOutcome.ret : CmdOutcome → Int
  | CmdOutcome.ok _ => 4
  | CmdOutcome.fail _ => -1

/-- An externally visible action: one duplex transfer of a command frame,
or one usleep settle wait. -/
inductive Event where
  | transfer (cmd : Frame)
  | wait (usec : Nat)
deriving DecidableEq, Repr

/-- Number of duplex transfers in a trace. -/
def numTransfers : List Event → Nat
  | [] => 0
  | Event.transfer _ :: es => numTransfers es + 1
  | Event.wait _ :: es => numTransfers es

/-- linuxspi_program_enable, lines 211-230: -1 when the enable template is
missing (no transfer); otherwise build the command from the all-zero frame,
perform one duplex exchange whose outcome is oc — its returned int is
discarded, exactly as at line 224 — and report -2 unless res[2] == cmd[1]. -/
def linuxspi_program_enable (p : AVRPART) (oc : CmdOutcome) : Int × List Event :=
  match p.op_pgm_enable with
  | none => (-1, [])
  | some templ =>
    let cmd := avr_set_bits templ zeroFrame
    if (oc.buffer).b2 ≠ cmd.b1 then (-2, [Event.transfer cmd])
    else (0, [Event.transfer cmd])

/-- The do-while retry loop of linuxspi_initialize, lines 187-195, with
idx the index of the next duplex call in the oracle and the second Nat the
number of attempts still allowed (65 at entry).  The attempt's rc breaks
the loop when it is 0 or -1; otherwise the loop retries while attempts
remain, and the last attempt's rc is the loop's result. -/
def enableLoop (p : AVRPART) (t : Nat → CmdOutcome) : Nat → Nat → Int × List Event
  | _, 0 => (-2, [])
  | idx, n + 1 =>
    let a := linuxspi_program_enable p (t idx)
    if a.1 = 0 ∨ a.1 = -1 then a
    else if n = 0 then a
    else
      let rest := enableLoop p t (idx + 1) n
      (rest.1, a.2 ++ rest.2)

/-- Result of linuxspi_initialize; the constructors track which stderr
diagnostic ran (line 182 for TPI, line 199 for a nonzero loop rc). -/
inductive InitResult where
  | ok
  | unsupportedTPI
  | notResponding
deriving DecidableEq, Repr

/-- The C return value of linuxspi_initialize: 0 on success, else -1. -/
def initRet : InitResult → Int
  | InitResult.ok => 0
  | InitResult.unsupportedTPI => -1
  | InitResult.notResponding => -1

/-- linuxspi_initialize, lines 175-204: refuse TPI-only parts before any
transfer, then run the bounded enable retry loop and fail unless the loop
ended with rc = 0. -/
def linuxspi_init (p : AVRPART) (t : Nat → CmdOutcome) : InitResult × List Event :=
  if p.flags_has_tpi then (InitResult.unsupportedTPI, [])
  else
    let r := enableLoop p t 0 65
    if r.1 = 0 then (InitResult.ok, r.2) else (InitResult.notResponding, r.2)

/-- Result of linuxspi_chip_erase; missingOpcode is the line 239 branch. -/
inductive EraseResult where
  | ok
  | missingOpcode
deriving DecidableEq, Repr

/-- The C return value of linuxspi_chip_erase: 0 on success, else -1. -/
def eraseRet : EraseResult → Int
  | EraseResult.ok => 0
  | EraseResult.missingOpcode => -1

/-- linuxspi_chip_erase, lines 232-251: fail before any transfer when the
erase template is missing; otherwise build and send the erase command (its
duplex outcome, t 0, is discarded at line 246), usleep the settle delay,
re-run linuxspi_init on the remaining oracle, and — exactly as at lines
248-250 — discard that result and return 0. -/
def linuxspi_chip_erase (p : AVRPART) (t : Nat → CmdOutcome) : EraseResult × List Event :=
  match p.op_chip_erase with
  | none => (EraseResult.missingOpcode, [])
  | some templ =>
    let cmd := avr_set_bits templ zeroFrame
    let r := linuxspi_init p (fun i => t (i + 1))
    (EraseResult.ok, Event.transfer cmd :: Event.wait p.chip_erase_delay :: r.2)

/-- A part whose enable template sets byte 0 to 0xAC and byte 1 to 0x53
(the spec's concrete scenario) and whose erase template sets 0xAC 0x80. -/
def partAC53 : AVRPART :=
  ⟨false, some ⟨0xAC, 0x53, 0, 0⟩, some ⟨0xAC, 0x80, 0, 0⟩, 9000, "atmega"⟩

/-- A part whose capability flags mark it TPI-only. -/
def partTPI : AVRPART :=
  ⟨true, some ⟨0xAC, 0x53, 0, 0⟩, some ⟨0xAC, 0x80, 0, 0⟩, 9000, "attiny"⟩

/-- A part with no chip-erase opcode template. -/
def partNoErase : AVRPART :=
  ⟨false, some ⟨0xAC, 0x53, 0, 0⟩, none, 9000, "nochiperase"⟩

/-- Transport stub whose every exchange succeeds with an all-zero frame,
so the echo byte never matches 0x53. -/
def stubMismatch : Nat → CmdOutcome := fun _ => CmdOutcome.ok ⟨0, 0, 0, 0⟩

/-- Transport stub succeeding with the correct echo on its 3rd call
(index 2) and mismatching before and after. -/
def stubThird : Nat → CmdOutcome := fun n =>
  if n = 2 then CmdOutcome.ok ⟨0, 0x53, 0x53, 0⟩ else CmdOutcome.ok ⟨0, 0, 0, 0⟩

/-- Transport stub reporting a transport-level failure on its first call,
with all-zero residual bytes, then succeeding with a correct echo. -/
def stubFailThenOk : Nat → CmdOutcome := fun n =>
  if n = 0 then CmdOutcome.fail ⟨0, 0, 0, 0⟩ else CmdOutcome.ok ⟨0, 0x53, 0x53, 0⟩

/-- Transport stub whose every exchange fails, with all-zero residual. -/
def stubAllFail : Nat → CmdOutcome := fun _ => CmdOutcome.fail ⟨0, 0, 0, 0⟩

theorem program_enable_mismatch (p : AVRPART) (templ : OpcodeTemplate)
    (hop : p.op_pgm_enable = some templ) (oc : CmdOutcome)
    (h : (oc.buffer).b2 ≠ (avr_set_bits templ zeroFrame).b1) :
    linuxspi_program_enable p oc =
      (-2, [Event.transfer (avr_set_bits templ zeroFrame)]) := by
  simp [linuxspi_program_enable, hop, h]

theorem program_enable_match (p : AVRPART) (templ : OpcodeTemplate)
    (hop : p.op_pgm_enable = some templ) (oc : CmdOutcome)
    (h : (oc.buffer).b2 = (avr_set_bits templ zeroFrame).b1) :
    linuxspi_program_enable p oc =
      (0, [Event.transfer (avr_set_bits templ zeroFrame)]) := by
  simp [linuxspi_program_enable, hop, h]

theorem enableLoop_succ_eq (p : AVRPART) (t : Nat → CmdOutcome) (idx n : Nat) :
    enableLoop p t idx (n + 1) =
      (let a := linuxspi_program_enable p (t idx)
       if a.1 = 0 ∨ a.1 = -1 then a
       else if n = 0 then a
       else
         let rest := enableLoop p t (idx + 1) n
         (rest.1, a.2 ++ rest.2)) := rfl

theorem numTransfers_replicate (n : Nat) (c : Frame) :
    numTransfers (List.replicate n (Event.transfer c)) = n := by
  induction n with
  | zero => rfl
  | succ m ih => simp [List.replicate_succ, numTransfers, ih]

theorem enableLoop_mismatch (p : AVRPART) (templ : OpcodeTemplate)
    (hop : p.op_pgm_enable = some templ) (t : Nat → CmdOutcome) :
    ∀ (n idx : Nat), 1 ≤ n →
      (∀ i, idx ≤ i → i < idx + n →
        ((t i).buffer).b2 ≠ (avr_set_bits templ zeroFrame).b1) →
      enableLoop p t idx n =
        (-2, List.replicate n (Event.transfer (avr_set_bits templ zeroFrame))) := by
  intro n
  induction n with
  | zero => intro idx h1 _; omega
  | succ m ih =>
    intro idx _ hm
    have hpe : linuxspi_program_enable p (t idx) =
        (-2, [Event.transfer (avr_set_bits templ zeroFrame)]) :=
      program_enable_mismatch p templ hop (t idx) (hm idx (Nat.le_refl idx) (by omega))
    cases m with
    | zero =>
      rw [enableLoop_succ_eq]
      simp [hpe]
    | succ k =>
      have hrec := ih (idx + 1) (by omega) (fun i h1 h2 => hm i (by omega) (by omega))
      rw [enableLoop_succ_eq]
      simp [hpe, hrec, List.replicate_succ]

theorem enableLoop_success (p : AVRPART) (templ : OpcodeTemplate)
    (hop : p.op_pgm_enable = some templ) (t : Nat → CmdOutcome) :
    ∀ (j idx n : Nat), j < n →
      (∀ i, idx ≤ i → i < idx + j →
        ((t i).buffer).b2 ≠ (avr_set_bits templ zeroFrame).b1) →
      ((t (idx + j)).buffer).b2 = (avr_set_bits templ zeroFrame).b1 →
      enableLoop p t idx n =
        (0, List.replicate (j + 1) (Event.transfer (avr_set_bits templ zeroFrame))) := by
  intro j
  induction j with
  | zero =>
    intro idx n hn hm hs
    cases n with
    | zero => omega
    | succ m =>
      have hpe : linuxspi_program_enable p (t idx) =
          (0, [Event.transfer (avr_set_bits templ zeroFrame)]) :=
        program_enable_match p templ hop (t idx) (by simpa using hs)
      rw [enableLoop_succ_eq]
      simp [hpe]
  | succ k ih =>
    intro idx n hn hm hs
    cases n with
    | zero => omega
    | succ m =>
      have hpe : linuxspi_program_enable p (t idx) =
          (-2, [Event.transfer (avr_set_bits templ zeroFrame)]) :=
        program_enable_mismatch p templ hop (t idx) (hm idx (Nat.le_refl idx) (by omega))
      have hmz : m ≠ 0 := by omega
      have hs2 : ((t (idx + 1 + k)).buffer).b2 = (avr_set_bits templ zeroFrame).b1 := by
        have he : idx + 1 + k = idx + (k + 1) := by omega
        rw [he]; exact hs
      have hrec := ih (idx + 1) m (by omega)
        (fun i h1 h2 => hm i (by omega) (by omega)) hs2
      rw [enableLoop_succ_eq]
      simp [hpe, hrec, hmz, List.replicate_succ]

theorem program_enable_buffer_only (p : AVRPART) (oc oc2 : CmdOutcome)
    (h : oc.buffer = oc2.buffer) :
    linuxspi_program_enable p oc = linuxspi_program_enable p oc2 := by
  cases hop : p.op_pgm_enable with
  | none => simp [linuxspi_program_enable, hop]
  | some templ => simp [linuxspi_program_enable, hop, h]

theorem enableLoop_buffer_only (p : AVRPART) (t t2 : Nat → CmdOutcome)
    (h : ∀ i, (t i).buffer = (t2 i).buffer) :
    ∀ (n idx : Nat), enableLoop p t idx n = enableLoop p t2 idx n := by
  intro n
  induction n with
  | zero => intro idx; rfl
  | succ m ih =>
    intro idx
    rw [enableLoop_succ_eq, enableLoop_succ_eq,
      program_enable_buffer_only p (t idx) (t2 idx) (h idx), ih (idx + 1)]

/-- C1 counterexample: the transport reports a transport-level failure on
the very first exchange (stubFailThenOk 0 is a fail outcome with all-zero
residual bytes), yet the retry loop does not terminate there: the failed
attempt is treated as an ordinary echo mismatch and retried, a second
exchange happens, and the whole enable operation succeeds after 2
transfers instead of failing with a distinct transport-error outcome. -/
theorem c1_transport_fault_invisible_cex :
    stubFailThenOk 0 = CmdOutcome.fail ⟨0, 0, 0, 0⟩ ∧
    linuxspi_init partAC53 stubFailThenOk =
      (InitResult.ok,
       [Event.transfer ⟨0xAC, 0x53, 0, 0⟩, Event.transfer ⟨0xAC, 0x53, 0, 0⟩]) ∧
    numTransfers (linuxspi_init partAC53 stubFailThenOk).2 = 2 := by
  decide

/-- C1 (amended): a transport-level duplex failure is not a distinct
outcome of the enable operation at all.  linuxspi_program_enable discards
the int pgm->cmd returns (line 224), so the result of linuxspi_init
depends only on the bytes left in the response buffer: replacing any
pattern of transport failures by successes with the same buffer contents
leaves the result unchanged.  In particular a transport fault whose
residual buffer mismatches the echo is retried exactly like an echo
mismatch, and there is no TransportError outcome distinct from it. -/
theorem c1_enable_depends_only_on_buffers (p : AVRPART) (t t2 : Nat → CmdOutcome)
    (h : ∀ i, (t i).buffer = (t2 i).buffer) :
    linuxspi_init p t = linuxspi_init p t2 := by
  simp [linuxspi_init, enableLoop_buffer_only p t t2 h 65 0]

/-- Witness for the amended C1 at concrete inputs: an always-failing
transport with zero residual is indistinguishable from an always
succeeding transport answering zero frames. -/
theorem c1_enable_depends_only_on_buffers_witness :
    linuxspi_init partAC53 stubAllFail = linuxspi_init partAC53 stubMismatch :=
  c1_enable_depends_only_on_buffers partAC53 stubAllFail stubMismatch (fun _ => rfl)

/-- C2 counterexample: on a part with an erase template and a transport
whose echo always mismatches, the re-enable performed by chip erase fails
with the device-not-responding outcome (C return value -1), yet
linuxspi_chip_erase returns success (C return value 0): the value chip
erase returns is not the value the re-enable call returned. -/
theorem c2_erase_discards_reenable_cex :
    (linuxspi_chip_erase partAC53 stubMismatch).1 = EraseResult.ok ∧
    eraseRet (linuxspi_chip_erase partAC53 stubMismatch).1 = 0 ∧
    (linuxspi_init partAC53 (fun i => stubMismatch (i + 1))).1 =
      InitResult.notResponding ∧
    initRet (linuxspi_init partAC53 (fun i => stubMismatch (i + 1))).1 = -1 := by
  decide

/-- C2 (amended): for every part with an erase template, chip erase sends
exactly one erase command, then waits the part-specified settle duration,
then re-invokes the enable handshake (its trace is exactly the trace of
linuxspi_init on the remaining transport oracle) — but its own return
value is unconditionally success: the re-enable's result is discarded at
lines 248-250, so chip erase succeeds even when the re-enable fails. -/
theorem c2_chip_erase_trace (p : AVRPART) (templ : OpcodeTemplate)
    (t : Nat → CmdOutcome) (hop : p.op_chip_erase = some templ) :
    linuxspi_chip_erase p t =
      (EraseResult.ok,
       Event.transfer (avr_set_bits templ zeroFrame) ::
         Event.wait p.chip_erase_delay ::
         (linuxspi_init p (fun i => t (i + 1))).2) := by
  simp [linuxspi_chip_erase, hop]

/-- Witness for the amended C2 at concrete inputs. -/
theorem c2_chip_erase_trace_witness :
    linuxspi_chip_erase partAC53 stubMismatch =
      (EraseResult.ok,
       Event.transfer (avr_set_bits ⟨0xAC, 0x80, 0, 0⟩ zeroFrame) ::
         Event.wait partAC53.chip_erase_delay ::
         (linuxspi_init partAC53 (fun i => stubMismatch (i + 1))).2) :=
  c2_chip_erase_trace partAC53 ⟨0xAC, 0x80, 0, 0⟩ stubMismatch rfl

/-- C3: for every part with an enable template that is not TPI-only, if
each of the first 65 exchanges yields a mismatched echo, the enable
operation performs exactly 65 attempts — its trace is 65 duplex transfers
of the built enable command — and fails with the device-not-responding
outcome. -/
theorem c3_all_mismatch_65_attempts (p : AVRPART) (templ : OpcodeTemplate)
    (t : Nat → CmdOutcome) (htpi : p.flags_has_tpi = false)
    (hop : p.op_pgm_enable = some templ)
    (hm : ∀ i, i < 65 → ((t i).buffer).b2 ≠ (avr_set_bits templ zeroFrame).b1) :
    linuxspi_init p t =
      (InitResult.notResponding,
       List.replicate 65 (Event.transfer (avr_set_bits templ zeroFrame))) ∧
    numTransfers (linuxspi_init p t).2 = 65 := by
  have h := enableLoop_mismatch p templ hop t 65 0 (by omega)
    (fun i h1 h2 => hm i (by omega))
  have h1 : linuxspi_init p t =
      (InitResult.notResponding,
       List.replicate 65 (Event.transfer (avr_set_bits templ zeroFrame))) := by
    simp [linuxspi_init, htpi, h]
  refine ⟨h1, ?_⟩
  rw [h1]
  exact numTransfers_replicate 65 (avr_set_bits templ zeroFrame)

/-- Witness for C3 at concrete inputs: an always-zero-echo transport. -/
theorem c3_all_mismatch_65_attempts_witness :
    linuxspi_init partAC53 stubMismatch =
      (InitResult.notResponding,
       List.replicate 65 (Event.transfer (avr_set_bits ⟨0xAC, 0x53, 0, 0⟩ zeroFrame))) ∧
    numTransfers (linuxspi_init partAC53 stubMismatch).2 = 65 :=
  c3_all_mismatch_65_attempts partAC53 ⟨0xAC, 0x53, 0, 0⟩ stubMismatch rfl rfl
    (fun i _ => by
      show (0 : Nat) ≠ (avr_set_bits ⟨0xAC, 0x53, 0, 0⟩ zeroFrame).b1
      decide)

/-- C4: for every 1 ≤ k ≤ 65, if the transport produces a correct echo
(response byte 2 equal to command byte 1) on the k-th exchange and
mismatching echoes on the k-1 prior ones, the enable operation succeeds
and its trace is exactly k duplex transfers of the built enable command. -/
theorem c4_success_at_attempt_k (p : AVRPART) (templ : OpcodeTemplate)
    (t : Nat → CmdOutcome) (k : Nat) (htpi : p.flags_has_tpi = false)
    (hop : p.op_pgm_enable = some templ) (hk1 : 1 ≤ k) (hk65 : k ≤ 65)
    (hm : ∀ i, i + 1 < k → ((t i).buffer).b2 ≠ (avr_set_bits templ zeroFrame).b1)
    (hs : ((t (k - 1)).buffer).b2 = (avr_set_bits templ zeroFrame).b1) :
    linuxspi_init p t =
      (InitResult.ok,
       List.replicate k (Event.transfer (avr_set_bits templ zeroFrame))) ∧
    numTransfers (linuxspi_init p t).2 = k := by
  have h := enableLoop_success p templ hop t (k - 1) 0 65 (by omega)
    (fun i h1 h2 => hm i (by omega))
    (by
      have he : 0 + (k - 1) = k - 1 := by omega
      rw [he]; exact hs)
  have hk : k - 1 + 1 = k := by omega
  rw [hk] at h
  constructor
  · simp [linuxspi_init, htpi, h]
  · simp [linuxspi_init, htpi, h, numTransfers_replicate]

/-- Witness for C4 at k = 3 with the 3rd-call-correct transport stub. -/
theorem c4_success_at_attempt_k_witness :
    linuxspi_init partAC53 stubThird =
      (InitResult.ok,
       List.replicate 3 (Event.transfer (avr_set_bits ⟨0xAC, 0x53, 0, 0⟩ zeroFrame))) ∧
    numTransfers (linuxspi_init partAC53 stubThird).2 = 3 :=
  c4_success_at_attempt_k partAC53 ⟨0xAC, 0x53, 0, 0⟩ stubThird 3 rfl rfl
    (by omega) (by omega)
    (fun i hi => by
      have h2 : i = 0 ∨ i = 1 := by omega
      rcases h2 with h2 | h2 <;> subst h2 <;> decide)
    (by decide)

/-- C5 counterexample: linuxspi_open on the empty port string does not
fail fatally — the empty string is neither the null pointer nor equal to
"unknown", so the code stores it verbatim and returns success. -/
theorem c5_empty_port_accepted_cex :
    linuxspi_open (some "") ≠ OpenResult.fatalExit ∧
    linuxspi_open (some "") = OpenResult.opened "" := by
  constructor
  · decide
  · rfl

/-- C5 (amended): open fails fatally if and only if the port is absent
(the null pointer) or equals the sentinel "unknown"; for any other port
string — the empty string included — it stores the port verbatim and
returns success. -/
theorem c5_open_fatal_iff_null_or_unknown (port : Option String) :
    (linuxspi_open port = OpenResult.fatalExit ↔
      port = none ∨ port = some "unknown") ∧
    (∀ s, port = some s → s ≠ "unknown" →
      linuxspi_open port = OpenResult.opened s) := by
  cases port with
  | none => simp [linuxspi_open]
  | some s =>
    by_cases h : s = "unknown"
    · subst h; simp [linuxspi_open]
    · simp [linuxspi_open, h]

/-- Witness for the amended C5 at a concrete device path. -/
theorem c5_open_fatal_iff_null_or_unknown_witness :
    linuxspi_open (some "/dev/spidev0.0") = OpenResult.opened "/dev/spidev0.0" :=
  (c5_open_fatal_iff_null_or_unknown (some "/dev/spidev0.0")).2
    "/dev/spidev0.0" rfl (by decide)

/-- C6: the enable frame is the all-zero frame with the part's enable
template bits applied, and one enable attempt is accepted exactly when
response byte 2 equals command byte 1; concretely, the template setting
byte 0 to 0xAC and byte 1 to 0x53 builds the frame AC 53 00 00, and a
transport answering 00 53 53 00 on its 3rd call after two mismatches
makes the enable operation succeed after exactly 3 transfers. -/
theorem c6_build_and_echo_validation :
    (∀ (p : AVRPART) (templ : OpcodeTemplate) (oc : CmdOutcome),
      p.op_pgm_enable = some templ →
      ((linuxspi_program_enable p oc).1 = 0 ↔
        (oc.buffer).b2 = (avr_set_bits templ zeroFrame).b1)) ∧
    avr_set_bits ⟨0xAC, 0x53, 0, 0⟩ zeroFrame = ⟨0xAC, 0x53, 0, 0⟩ ∧
    stubThird 2 = CmdOutcome.ok ⟨0, 0x53, 0x53, 0⟩ ∧
    linuxspi_init partAC53 stubThird =
      (InitResult.ok, List.replicate 3 (Event.transfer ⟨0xAC, 0x53, 0, 0⟩)) ∧
    numTransfers (linuxspi_init partAC53 stubThird).2 = 3 := by
  refine ⟨?_, by decide, by decide, by decide, by decide⟩
  intro p templ oc hop
  by_cases h : (oc.buffer).b2 = (avr_set_bits templ zeroFrame).b1
  · rw [program_enable_match p templ hop oc h]
    simp [h]
  · rw [program_enable_mismatch p templ hop oc h]
    simp [h]

/-- Witness for C6: the echo-validation equivalence applied at a concrete
part and a concrete matching response. -/
theorem c6_build_and_echo_validation_witness :
    (linuxspi_program_enable partAC53 (CmdOutcome.ok ⟨0, 0x53, 0x53, 0⟩)).1 = 0 :=
  (c6_build_and_echo_validation.1 partAC53 ⟨0xAC, 0x53, 0, 0⟩
    (CmdOutcome.ok ⟨0, 0x53, 0x53, 0⟩) rfl).mpr (by decide)

/-- C7: a duplex exchange of requested length len either succeeds
reporting exactly len bytes, or is an error; whenever the underlying
ioctl reports a byte count different from len, the result is the
short-transfer error, never success. -/
theorem c7_duplex_exact_or_error (openOk : Bool) (ioctlRet len : Int) :
    (∀ n, linuxspi_spi_duplex openOk ioctlRet len = DuplexResult.ok n → n = len) ∧
    (openOk = true → ioctlRet ≠ len →
      linuxspi_spi_duplex openOk ioctlRet len = DuplexResult.shortTransfer) := by
  constructor
  · intro n hn
    by_cases ho : openOk = false
    · simp [linuxspi_spi_duplex, ho] at hn
    · by_cases h : ioctlRet = len
      · subst h
        simp [linuxspi_spi_duplex, ho] at hn
        omega
      · simp [linuxspi_spi_duplex, ho, h] at hn
  · intro ho h
    simp [linuxspi_spi_duplex, ho, h]

/-- Witness for C7: an exchange that reports 3 of 4 requested bytes is
the short-transfer error. -/
theorem c7_duplex_exact_or_error_witness :
    linuxspi_spi_duplex true 3 4 = DuplexResult.shortTransfer :=
  (c7_duplex_exact_or_error true 3 4).2 rfl (by decide)

/-- C8: on a part whose capability flags mark it TPI-only, the enable
operation fails immediately with the unsupported-protocol outcome and its
trace is empty: zero duplex transfers are performed. -/
theorem c8_tpi_unsupported_no_transfer (p : AVRPART) (t : Nat → CmdOutcome)
    (h : p.flags_has_tpi = true) :
    linuxspi_init p t = (InitResult.unsupportedTPI, []) ∧
    numTransfers (linuxspi_init p t).2 = 0 := by
  constructor
  · simp [linuxspi_init, h]
  · simp [linuxspi_init, h, numTransfers]

/-- Witness for C8 at a concrete TPI-only part. -/
theorem c8_tpi_unsupported_no_transfer_witness :
    linuxspi_init partTPI stubMismatch = (InitResult.unsupportedTPI, []) ∧
    numTransfers (linuxspi_init partTPI stubMismatch).2 = 0 :=
  c8_tpi_unsupported_no_transfer partTPI stubMismatch rfl

/-- C9: on a part with no chip-erase opcode template, chip erase fails
with the missing-opcode outcome and its trace is empty — the check runs
before any transfer and zero duplex transfers are performed. -/
theorem c9_erase_missing_opcode_no_transfer (p : AVRPART) (t : Nat → CmdOutcome)
    (h : p.op_chip_erase = none) :
    linuxspi_chip_erase p t = (EraseResult.missingOpcode, []) ∧
    numTransfers (linuxspi_chip_erase p t).2 = 0 := by
  constructor
  · simp [linuxspi_chip_erase, h]
  · simp [linuxspi_chip_erase, h, numTransfers]

/-- Witness for C9 at a concrete part lacking an erase template. -/
theorem c9_erase_missing_opcode_no_transfer_witness :
    linuxspi_chip_erase partNoErase stubMismatch = (EraseResult.missingOpcode, []) ∧
    numTransfers (linuxspi_chip_erase partNoErase stubMismatch).2 = 0 :=
  c9_erase_missing_opcode_no_transfer partNoErase stubMismatch rfl

/-- C10: both duplex failure modes — a failed device-node acquisition and
a byte count different from the requested length — map to the same C
return value -1, so a caller cannot tell them apart from the return value
alone; only the emitted stderr diagnostics differ. -/
theorem c10_duplex_errors_conflated :
    duplexRet DuplexResult.openFailed = -1 ∧
    duplexRet DuplexResult.shortTransfer = -1 ∧
    duplexRet DuplexResult.openFailed = duplexRet DuplexResult.shortTransfer ∧
    duplexDiagnostic DuplexResult.openFailed ≠
      duplexDiagnostic DuplexResult.shortTransfer := by
  refine ⟨rfl, rfl, rfl, by decide⟩
